import Mathlib

/-!
Verification of the interview-preparation backend (`model.py`, `app.py`).

The development shallowly embeds the Python sources.  External effects — the
filesystem, PDF text extraction, and the generative-language-model endpoint —
are passed in as explicit oracle values, exactly at the points where the code
consults them; everything the repository computes itself (string
post-processing, the markdown-fence extraction regex, `json.loads` and
`json.dumps` from the standard library, the session-state updates, and the
error-handling branches) is translated definition by definition.
-/

/-- JSON values, the image of `json.loads`.  A number keeps its source
literal (the claims never compare distinct spellings of one number), and an
object keeps its fields in insertion order with unique keys, as a Python
`dict` built by `json.loads` does. -/
inductive JValue where
  | null
  | bool (b : Bool)
  | num (lit : String)
  | str (s : String)
  | arr (elems : List JValue)
  | obj (fields : List (String × JValue))

/-- The mutable state of `InterviewPreparationModel`: `resume_data` (a dict or
`None`), `interview_questions`, `current_question_index`. -/
structure ModelState where
  resume_data : Option (List (String × JValue))
  interview_questions : List String
  current_question_index : Nat

/-- `InterviewPreparationModel.reset` (model.py lines 29-35). -/
def reset (_st : ModelState) : ModelState := ModelState.mk none [] 0

/-! ## Python string primitives

`str.strip`, `str.lower`, `str.endswith`, `str.split('\n')` and `str.replace`
are modelled over `List Char` so that every use reduces by `rfl` in the
kernel.  `pyStrip` covers the ASCII whitespace Python strips. -/

def isPySpace (c : Char) : Bool :=
  c == ' ' || c == '\t' || c == '\n' || c == '\r' || c == '\x0b' || c == '\x0c'

def pyStrip (s : String) : String :=
  String.mk (((s.data.dropWhile isPySpace).reverse.dropWhile isPySpace).reverse)

def pyLower (s : String) : String := String.mk (s.data.map Char.toLower)

def strEndsWith (s suf : String) : Bool := List.isSuffixOf suf.data s.data

/-- `file_path.lower().endswith('.pdf')` (model.py line 46). -/
def endsWithPdf (file_path : String) : Bool := strEndsWith (pyLower file_path) ".pdf"

/-- `str.split('\n')`: Python keeps empty pieces, and the split of `""` is
`[""]`. -/
def splitNl : List Char → List (List Char)
  | [] => [[]]
  | '\n' :: rest => [] :: splitNl rest
  | c :: rest =>
    match splitNl rest with
    | [] => [[c]]
    | h :: t => (c :: h) :: t

def pySplitLines (s : String) : List String := (splitNl s.data).map String.mk

/-- Worker for `str.replace`: replace every occurrence of `p :: ps` by `rep`,
scanning left to right and skipping past each match, as Python does.  The
`fuel` argument (instantiated with the length of the scanned list, which
bounds the number of steps because every step consumes at least one
character) keeps the recursion structural, so that applications reduce in
the kernel. -/
def replaceAllGo (p : Char) (ps rep : List Char) : Nat → List Char → List Char
  | 0, _ => []
  | Nat.succ _, [] => []
  | Nat.succ fuel, c :: rest =>
    if List.isPrefixOf (p :: ps) (c :: rest) then
      rep ++ replaceAllGo p ps rep fuel (List.drop ps.length rest)
    else
      c :: replaceAllGo p ps rep fuel rest

/-- `s.replace(pat, rep)` for a non-empty pattern (the code never replaces an
empty pattern). -/
def pyReplace (s pat rep : String) : String :=
  match pat.data with
  | [] => s
  | p :: ps => String.mk (replaceAllGo p ps rep.data s.data.length s.data)

/-! ## The markdown-fence extraction regex

`parse_resume` (model.py lines 89-93) runs
`re.search(r'```json\n(.*?)```', content, re.DOTALL)` and, when it matches,
keeps only the captured group.  `re.search` takes the leftmost position where
the whole pattern can match, and the non-greedy `(.*?)` makes the capture end
at the first later occurrence of the closing fence. -/

/-- The backtick character, kept as a named constant. -/
def btick : Char := Char.ofNat 96

def openFence : List Char := "```json\n".data

def closeFence : List Char := "```".data

/-- Scan for the first occurrence of `close`; return the characters before it
(the shortest capture of `(.*?)`), or `none` when the closing fence never
occurs. -/
def captureUpTo (close : List Char) : List Char → Option (List Char)
  | [] => none
  | c :: rest =>
    if List.isPrefixOf close (c :: rest) then some []
    else (captureUpTo close rest).map (fun t => c :: t)

/-- Leftmost match of the whole pattern: at each position try the opening
fence and then the shortest capture; on failure resume the search one
character later, as the regex engine does. -/
def findFenced : List Char → Option (List Char)
  | [] => none
  | c :: rest =>
    if List.isPrefixOf openFence (c :: rest) then
      match captureUpTo closeFence (List.drop 8 (c :: rest)) with
      | some cap => some cap
      | none => findFenced rest
    else findFenced rest

/-- The content handed to `json.loads`: the captured group when the fence
pattern matches, the raw reply otherwise (model.py lines 90-96). -/
def extractContent (content : String) : String :=
  match findFenced content.data with
  | some cap => String.mk cap
  | none => content

def noBacktick (s : String) : Bool := s.data.all (fun c => c != btick)

/-! ## `json.loads`

A fuel-indexed recursive-descent parser for RFC 8259 JSON plus the CPython
extensions `NaN`, `Infinity` and `-Infinity`, faithful to `json.loads` on the
features the replies use: optional whitespace, objects, arrays, strings with
escapes, numbers, `true`/`false`/`null`, and a trailing-data check. -/

def isJsonWs (c : Char) : Bool := c == ' ' || c == '\t' || c == '\n' || c == '\r'

def skipWs (l : List Char) : List Char := l.dropWhile isJsonWs

def isHexDigit (c : Char) : Bool :=
  c.isDigit || (decide ('a' ≤ c) && decide (c ≤ 'f')) || (decide ('A' ≤ c) && decide (c ≤ 'F'))

def hexVal (c : Char) : Nat :=
  if c.isDigit then c.toNat - 48
  else if decide ('a' ≤ c) then c.toNat - 87
  else c.toNat - 55

def consChar (c : Char) (r : Except String (List Char × List Char)) :
    Except String (List Char × List Char) :=
  match r with
  | Except.error e => Except.error e
  | Except.ok (cs, rest) => Except.ok (c :: cs, rest)

/-- Body of a JSON string, after the opening quote: the decoded characters and
the remainder after the closing quote. -/
def parseStringBody : List Char → Except String (List Char × List Char)
  | [] => Except.error "Unterminated string"
  | '"' :: rest => Except.ok ([], rest)
  | '\\' :: '"' :: rest => consChar '"' (parseStringBody rest)
  | '\\' :: '\\' :: rest => consChar '\\' (parseStringBody rest)
  | '\\' :: '/' :: rest => consChar '/' (parseStringBody rest)
  | '\\' :: 'b' :: rest => consChar '\x08' (parseStringBody rest)
  | '\\' :: 'f' :: rest => consChar '\x0c' (parseStringBody rest)
  | '\\' :: 'n' :: rest => consChar '\n' (parseStringBody rest)
  | '\\' :: 'r' :: rest => consChar '\r' (parseStringBody rest)
  | '\\' :: 't' :: rest => consChar '\t' (parseStringBody rest)
  | '\\' :: 'u' :: a :: b :: c :: d :: rest =>
    if isHexDigit a && isHexDigit b && isHexDigit c && isHexDigit d then
      consChar (Char.ofNat (((hexVal a * 16 + hexVal b) * 16 + hexVal c) * 16 + hexVal d))
        (parseStringBody rest)
    else Except.error "Invalid \\uXXXX escape"
  | '\\' :: _ => Except.error "Invalid \\escape"
  | c :: rest => consChar c (parseStringBody rest)

def digitSpan (l : List Char) : List Char × List Char := l.span Char.isDigit

/-- Optional fraction part `\.[0-9]+`; when absent the characters are left in
the remainder, as the number regex of `json.loads` does. -/
def numFrac (l : List Char) : List Char × List Char :=
  match l with
  | '.' :: r =>
    match digitSpan r with
    | ([], _) => ([], l)
    | (ds, r2) => ('.' :: ds, r2)
  | _ => ([], l)

/-- Optional exponent part `[eE][+-]?[0-9]+`. -/
def numExp (l : List Char) : List Char × List Char :=
  match l with
  | e :: r =>
    if e == 'e' || e == 'E' then
      match r with
      | s :: r2 =>
        if s == '+' || s == '-' then
          match digitSpan r2 with
          | ([], _) => ([], l)
          | (ds, r3) => (e :: s :: ds, r3)
        else
          match digitSpan r with
          | ([], _) => ([], l)
          | (ds, r3) => (e :: ds, r3)
      | [] => ([], l)
    else ([], l)
  | [] => ([], l)

/-- The number literal at the head of `l`:
`-?(0|[1-9][0-9]*)(\.[0-9]+)?([eE][+-]?[0-9]+)?`. -/
def parseNumberLit (l : List Char) : Except String (List Char × List Char) :=
  let sr : List Char × List Char :=
    match l with
    | '-' :: r => (['-'], r)
    | _ => ([], l)
  match sr.2 with
  | [] => Except.error "Expecting value"
  | c :: r =>
    if c == '0' then
      let fr := numFrac r
      let ex := numExp fr.2
      Except.ok (sr.1 ++ '0' :: (fr.1 ++ ex.1), ex.2)
    else if c.isDigit then
      let ds := digitSpan r
      let fr := numFrac ds.2
      let ex := numExp fr.2
      Except.ok (sr.1 ++ c :: (ds.1 ++ fr.1 ++ ex.1), ex.2)
    else Except.error "Expecting value"

/-- Insert a member into an object under construction: `json.loads` builds a
`dict`, so a repeated key keeps its first position and takes the last value. -/
def objInsert (acc : List (String × JValue)) (k : String) (v : JValue) :
    List (String × JValue) :=
  if acc.any (fun kv => kv.1 == k) then
    acc.map (fun kv => if kv.1 == k then (k, v) else kv)
  else acc ++ [(k, v)]

mutual

def parseVal : Nat → List Char → Except String (JValue × List Char)
  | 0, _ => Except.error "Too much recursion"
  | Nat.succ fuel, l =>
    match skipWs l with
    | [] => Except.error "Expecting value"
    | '\x7b' :: rest => parseObjStart fuel rest
    | '[' :: rest => parseArrStart fuel rest
    | '"' :: rest =>
      match parseStringBody rest with
      | Except.error e => Except.error e
      | Except.ok (cs, r) => Except.ok (JValue.str (String.mk cs), r)
    | 't' :: 'r' :: 'u' :: 'e' :: rest => Except.ok (JValue.bool true, rest)
    | 'f' :: 'a' :: 'l' :: 's' :: 'e' :: rest => Except.ok (JValue.bool false, rest)
    | 'n' :: 'u' :: 'l' :: 'l' :: rest => Except.ok (JValue.null, rest)
    | 'N' :: 'a' :: 'N' :: rest => Except.ok (JValue.num "NaN", rest)
    | 'I' :: 'n' :: 'f' :: 'i' :: 'n' :: 'i' :: 't' :: 'y' :: rest =>
      Except.ok (JValue.num "Infinity", rest)
    | '-' :: 'I' :: 'n' :: 'f' :: 'i' :: 'n' :: 'i' :: 't' :: 'y' :: rest =>
      Except.ok (JValue.num "-Infinity", rest)
    | l2 =>
      match parseNumberLit l2 with
      | Except.error e => Except.error e
      | Except.ok (ds, r) => Except.ok (JValue.num (String.mk ds), r)

def parseArrStart : Nat → List Char → Except String (JValue × List Char)
  | 0, _ => Except.error "Too much recursion"
  | Nat.succ fuel, l =>
    match skipWs l with
    | ']' :: rest => Except.ok (JValue.arr [], rest)
    | l2 =>
      match parseVal fuel l2 with
      | Except.error e => Except.error e
      | Except.ok (v, r) => parseArrMore fuel [v] r

def parseArrMore : Nat → List JValue → List Char → Except String (JValue × List Char)
  | 0, _, _ => Except.error "Too much recursion"
  | Nat.succ fuel, acc, l =>
    match skipWs l with
    | ',' :: rest =>
      match parseVal fuel rest with
      | Except.error e => Except.error e
      | Except.ok (v, r) => parseArrMore fuel (acc ++ [v]) r
    | ']' :: rest => Except.ok (JValue.arr acc, rest)
    | _ => Except.error "Expecting delimiter"

def parseObjStart : Nat → List Char → Except String (JValue × List Char)
  | 0, _ => Except.error "Too much recursion"
  | Nat.succ fuel, l =>
    match skipWs l with
    | '\x7d' :: rest => Except.ok (JValue.obj [], rest)
    | '"' :: rest =>
      match parseStringBody rest with
      | Except.error e => Except.error e
      | Except.ok (k, r) => parseObjMember fuel [] (String.mk k) r
    | _ => Except.error "Expecting property name enclosed in double quotes"

def parseObjMember :
    Nat → List (String × JValue) → String → List Char → Except String (JValue × List Char)
  | 0, _, _, _ => Except.error "Too much recursion"
  | Nat.succ fuel, acc, k, l =>
    match skipWs l with
    | ':' :: rest =>
      match parseVal fuel rest with
      | Except.error e => Except.error e
      | Except.ok (v, r) => parseObjMore fuel (objInsert acc k v) r
    | _ => Except.error "Expecting colon delimiter"

def parseObjMore :
    Nat → List (String × JValue) → List Char → Except String (JValue × List Char)
  | 0, _, _ => Except.error "Too much recursion"
  | Nat.succ fuel, acc, l =>
    match skipWs l with
    | ',' :: rest =>
      match skipWs rest with
      | '"' :: r2 =>
        match parseStringBody r2 with
        | Except.error e => Except.error e
        | Except.ok (k, r3) => parseObjMember fuel acc (String.mk k) r3
      | _ => Except.error "Expecting property name enclosed in double quotes"
    | '\x7d' :: rest => Except.ok (JValue.obj acc, rest)
    | _ => Except.error "Expecting delimiter"

end

/-- `json.loads`: parse one value and reject trailing non-whitespace. -/
def parseJson (s : String) : Except String JValue :=
  match parseVal (2 * s.length + 2) s.data with
  | Except.error e => Except.error e
  | Except.ok (v, rest) =>
    if (skipWs rest).isEmpty then Except.ok v else Except.error "Extra data"

def jsonOk (r : Except String JValue) : Bool :=
  match r with
  | Except.ok _ => true
  | Except.error _ => false

def isNonemptyObj (v : JValue) : Bool :=
  match v with
  | JValue.obj fields => !fields.isEmpty
  | _ => false

/-! ## `json.dumps`

Serializer used by the prompt builders (default separators `", "` and `": "`,
`ensure_ascii` escaping).  A `num` prints its kept literal. -/

def toHexDigit (n : Nat) : Char :=
  if n < 10 then Char.ofNat (48 + n) else Char.ofNat (87 + (n - 10))

def toHex4 (n : Nat) : String :=
  String.mk [toHexDigit (n / 4096 % 16), toHexDigit (n / 256 % 16),
    toHexDigit (n / 16 % 16), toHexDigit (n % 16)]

def dumpChar (c : Char) : String :=
  if c == '"' then "\\\""
  else if c == '\\' then "\\\\"
  else if c == '\n' then "\\n"
  else if c == '\t' then "\\t"
  else if c == '\r' then "\\r"
  else if c == '\x08' then "\\b"
  else if c == '\x0c' then "\\f"
  else if c.toNat < 32 || 126 < c.toNat then "\\u" ++ toHex4 c.toNat
  else String.mk [c]

def dumpString (s : String) : String :=
  "\"" ++ String.join (s.data.map dumpChar) ++ "\""

mutual

def jsonDumps : JValue → String
  | JValue.null => "null"
  | JValue.bool true => "true"
  | JValue.bool false => "false"
  | JValue.num lit => lit
  | JValue.str s => dumpString s
  | JValue.arr xs => "[" ++ dumpList xs ++ "]"
  | JValue.obj fs => "\x7b" ++ dumpFields fs ++ "\x7d"

def dumpList : List JValue → String
  | [] => ""
  | [x] => jsonDumps x
  | x :: y :: xs => jsonDumps x ++ ", " ++ dumpList (y :: xs)

def dumpFields : List (String × JValue) → String
  | [] => ""
  | [(k, v)] => dumpString k ++ ": " ++ jsonDumps v
  | (k, v) :: f :: fs => dumpString k ++ ": " ++ jsonDumps v ++ ", " ++ dumpFields (f :: fs)

end

/-- `dict.get(k, default)` without the default: the stored value of `k`, if
present (keys are unique after `objInsert`). -/
def dget (d : List (String × JValue)) (k : String) : Option JValue :=
  match d.find? (fun kv => kv.1 == k) with
  | some kv => some kv.2
  | none => none

/-- Python type names, for the messages of `TypeError` and `AttributeError`. -/
def pyTypeName (v : JValue) : String :=
  match v with
  | JValue.null => "NoneType"
  | JValue.bool _ => "bool"
  | JValue.num _ => "int"
  | JValue.str _ => "str"
  | JValue.arr _ => "list"
  | JValue.obj _ => "dict"

/-- `len(v)`: defined on lists, strings and dicts, a `TypeError` otherwise. -/
def pyLen (v : JValue) : Except String Nat :=
  match v with
  | JValue.str s => Except.ok s.length
  | JValue.arr xs => Except.ok xs.length
  | JValue.obj fs => Except.ok fs.length
  | _ => Except.error ("TypeError: object of type \x27" ++ pyTypeName v ++ "\x27 has no len()")

/-! ## `InterviewPreparationModel.parse_resume` (model.py lines 37-115)

The filesystem check, the PDF loader / splitter (whose failures land in the
outermost `except`), and the LLM call are oracles in `ParseEnv`; everything
past them is the code's own logic. -/

structure ParseEnv where
  fileExists : Bool
  loadResult : Except String String
  llmResult : Except String String

/-- The dictionary `parse_resume` returns: the parsed résumé on success, or an
`error` message, with the `raw_response` field present exactly on the
JSON-decode failure branch. -/
inductive PResult where
  | ok (data : List (String × JValue))
  | err (msg : String) (raw : Option String)

def PResult.isErr (r : PResult) : Bool :=
  match r with
  | PResult.ok _ => false
  | PResult.err _ _ => true

def parse_resume (st : ModelState) (file_path : String) (env : ParseEnv) :
    ModelState × PResult :=
  if !env.fileExists then
    (st, PResult.err ("File not found: " ++ file_path) none)
  else if !endsWithPdf file_path then
    (st, PResult.err "Only PDF files are supported" none)
  else
    match env.loadResult with
    | Except.error e => (st, PResult.err ("Unexpected error parsing resume: " ++ e) none)
    | Except.ok resume_content =>
      if pyStrip resume_content == "" then
        (st, PResult.err "Resume content is empty or could not be extracted." none)
      else
        match env.llmResult with
        | Except.error e => (st, PResult.err ("Model invocation failed: " ++ e) none)
        | Except.ok content =>
          match parseJson (extractContent content) with
          | Except.error je =>
            (st, PResult.err ("Failed to parse resume data: " ++ je) (some content))
          | Except.ok parsed_data =>
            match parsed_data with
            | JValue.obj fields =>
              if fields.isEmpty then (st, PResult.err "Invalid resume data structure" none)
              else
                (ModelState.mk (some fields) st.interview_questions st.current_question_index,
                  PResult.ok fields)
            | _ => (st, PResult.err "Invalid resume data structure" none)

/-! ## `InterviewPreparationModel.generate_interview_questions`
(model.py lines 117-178) -/

def fallbackQuestions : List String :=
  ["Tell me about yourself and your professional background.",
   "What are your key strengths and areas of expertise?",
   "Describe a challenging project you\x27ve worked on and how you overcame obstacles.",
   "Where do you see yourself professionally in the next 5 years?",
   "What motivates you in your career?"]

/-- `"error" in self.resume_data` — key membership in the dict. -/
def hasErrorKey (d : List (String × JValue)) : Bool :=
  d.any (fun kv => kv.1 == "error")

/-- The list-comprehension post-processing of the reply (model.py lines
151-155): split on line breaks, keep stripped lines longer than 10
characters, and on each survivor replace every occurrence of `"Q: "` and then
of `"Question: "` by the empty string. -/
def processQuestions (content : String) : List String :=
  ((pySplitLines content).filter
    (fun q => !(pyStrip q == "") && decide (10 < (pyStrip q).length))).map
    (fun q => pyReplace (pyReplace (pyStrip q) "Q: " "") "Question: " "")

/-- `generate_interview_questions`: the LLM call is abstracted by its result
`llm` (an exception on the `Except.error` side, caught at lines 169-178). -/
def generate_interview_questions (st : ModelState) (llm : Except String String) :
    ModelState × List String :=
  match st.resume_data with
  | none =>
    (ModelState.mk st.resume_data fallbackQuestions st.current_question_index,
      fallbackQuestions)
  | some d =>
    if d.isEmpty || hasErrorKey d then
      (ModelState.mk st.resume_data fallbackQuestions st.current_question_index,
        fallbackQuestions)
    else
      match llm with
      | Except.error _ =>
        (ModelState.mk st.resume_data fallbackQuestions st.current_question_index,
          fallbackQuestions)
      | Except.ok content =>
        let qs := processQuestions content
        if qs.isEmpty then
          (ModelState.mk st.resume_data fallbackQuestions st.current_question_index,
            fallbackQuestions)
        else
          (ModelState.mk st.resume_data qs st.current_question_index, qs)

/-! ## `InterviewPreparationModel.evaluate_answer` (model.py lines 180-244)

The context block and the evaluation prompt are built before the
`try`/`except`, so a failure there — `len()` on a non-sized value, or `.get`
on a non-dict `skills` entry — is an uncaught Python exception, modelled as
the `Except.error` side of the result. -/

/-- The f-string of model.py lines 187-192 (the candidate-context block). -/
def contextTemplate (skills : String) (years : Nat) (tech : String) : String :=
  "\n            Candidate Background:\n            - Skills: " ++ skills ++
  "\n            - Experience Level: " ++ toString years ++
  " years\n            - Technical Background: " ++ tech ++ "\n            "

/-- model.py lines 184-192: `context = ""`, overwritten from the résumé data
when it is truthy.  The interpolations run in textual order: `json.dumps` of
`get('skills', [])`, then `len(get('experience', []))` (a `TypeError` on a
non-sized value), then `get('skills', \x7b\x7d).get('technical', [])` (an
`AttributeError` when the `skills` entry is not a dict). -/
def buildContext (rd : Option (List (String × JValue))) : Except String String :=
  match rd with
  | none => Except.ok ""
  | some d =>
    if d.isEmpty then Except.ok ""
    else
      let skills := (dget d "skills").getD (JValue.arr [])
      let expv := (dget d "experience").getD (JValue.arr [])
      match pyLen expv with
      | Except.error e => Except.error e
      | Except.ok years =>
        match (dget d "skills").getD (JValue.obj []) with
        | JValue.obj sd =>
          let tech := (dget sd "technical").getD (JValue.arr [])
          Except.ok (contextTemplate (jsonDumps skills) years (jsonDumps tech))
        | v =>
          Except.error
            ("AttributeError: \x27" ++ pyTypeName v ++ "\x27 object has no attribute \x27get\x27")

/-- The evaluation prompt template (model.py lines 194-238). -/
def evalPrompt (context question answer : String) : String :=
  "\n        You are an experienced technical interviewer and career coach. Evaluate the following interview response \n        considering the candidate\x27s background and the context of the question.\n\n        "
  ++ context ++
  "\n\n        Question: " ++ question ++
  "\n        Candidate\x27s Answer: " ++ answer ++
  "\n\n        Provide a comprehensive evaluation structured as follows:\n\n        1. Content Analysis:\n        - Key points effectively communicated\n        - Technical accuracy and depth of knowledge demonstrated\n        - Relevant experience and examples used\n        - Alignment with industry best practices\n\n        2. Communication Skills:\n        - Clarity and structure of the response\n        - Professional language and terminology usage\n        - Confidence and authority in presentation\n        - Balance between technical and non-technical explanation\n\n        3. Strategic Assessment:\n        - Alignment with what interviewers typically look for\n        - Understanding of the underlying business/technical context\n        - Problem-solving approach demonstrated\n        - Strategic thinking and decision-making shown\n\n        4. Specific Improvements:\n        - Missing key points or opportunities\n        - Alternative approaches or examples to consider\n        - Ways to make the answer more impactful\n        - Suggestions for better structuring the response\n\n        5. Follow-up Discussion:\n        - Natural follow-up questions this answer might prompt\n        - Areas worth exploring further\n        - Technical deep-dives that could be relevant\n        - Related scenarios to demonstrate broader knowledge\n\n        Keep feedback constructive, specific, and actionable. Focus on both immediate interview success \n        and long-term career development. If the answer involves technical concepts, evaluate both the \n        technical accuracy and the ability to communicate complex ideas effectively.\n        "

/-- The `try`/`except` around `self.llm.invoke` (model.py lines 240-244): a
model failure is converted into an apology string, so this stage always
yields a string. -/
def evalInvoke (r : Except String String) : Except String String :=
  match r with
  | Except.ok content => Except.ok content
  | Except.error e =>
    Except.ok ("Error generating feedback. Please try again. Details: " ++ toString e)

/-- `evaluate_answer`: the LLM is an oracle from the prompt it receives to its
reply or failure.  An `Except.error` result is an uncaught exception escaping
the method. -/
def evaluate_answer (st : ModelState) (question answer : String)
    (llm : String → Except String String) : Except String String :=
  match buildContext st.resume_data with
  | Except.error e => Except.error e
  | Except.ok context => evalInvoke (llm (evalPrompt context question answer))

/-! ## The `/api/parse-resume` route (app.py lines 64-116)

Modelled from the point where the upload has been accepted (`.pdf` extension,
non-empty filename) and saved to the fresh temp path: the `try` body resets
the state, parses, generates questions, and builds the response; an arbitrary
exception inside the body is the `some` case of `bodyExc`; the `finally`
clause unlinks the temp file when it still exists. -/

structure RouteResult where
  status : Nat
  tempExists : Bool
  finalState : ModelState

def app_parse_resume (st : ModelState) (env : ParseEnv) (qllm : Except String String)
    (bodyExc : Option String) : RouteResult :=
  let tempCreated := true
  let tryResult : Except String (Nat × ModelState) :=
    match bodyExc with
    | some e => Except.error e
    | none =>
      let st1 := reset st
      let pr := parse_resume st1 "upload.pdf" env
      match pr.2 with
      | PResult.err _ _ =>
        let g := generate_interview_questions pr.1 qllm
        Except.ok (400, g.1)
      | PResult.ok _ =>
        let g := generate_interview_questions pr.1 qllm
        Except.ok (200, g.1)
  let tempAfter := if tempCreated then false else tempCreated
  match tryResult with
  | Except.ok (code, stF) => RouteResult.mk code tempAfter stF
  | Except.error _ => RouteResult.mk 500 tempAfter (reset st)

/-! ## Helper lemmas -/

theorem closeFence_eq : closeFence = [btick, btick, btick] := rfl

theorem openFence_eq :
    openFence = btick :: btick :: btick :: 'j' :: 's' :: 'o' :: 'n' :: '\n' :: [] := rfl

theorem isPrefixOf_append_self (l₁ l₂ : List Char) :
    List.isPrefixOf l₁ (l₁ ++ l₂) = true := by
  induction l₁ with
  | nil => simp [List.isPrefixOf]
  | cons c t ih => simp [List.isPrefixOf, ih]

theorem captureUpTo_closeFence (l : List Char) (h : ∀ c ∈ l, c ≠ btick) :
    captureUpTo closeFence (l ++ closeFence) = some l := by
  induction l with
  | nil => rfl
  | cons c t ih =>
    have hbc : (btick == c) = false := beq_eq_false_iff_ne.mpr (Ne.symm (h c (by simp)))
    have hpre : List.isPrefixOf closeFence (c :: (t ++ closeFence)) = false := by
      rw [closeFence_eq]
      simp only [List.isPrefixOf, hbc, Bool.false_and]
    have ih2 := ih (fun x hx => h x (by simp [hx]))
    rw [List.cons_append, captureUpTo, if_neg (by simp [hpre]), ih2]
    rfl

theorem findFenced_no_btick (l : List Char) (h : ∀ c ∈ l, c ≠ btick) :
    findFenced l = none := by
  induction l with
  | nil => rfl
  | cons c t ih =>
    have hbc : (btick == c) = false := beq_eq_false_iff_ne.mpr (Ne.symm (h c (by simp)))
    have hpre : List.isPrefixOf openFence (c :: t) = false := by
      rw [openFence_eq]
      simp only [List.isPrefixOf, hbc, Bool.false_and]
    have ih2 := ih (fun x hx => h x (by simp [hx]))
    rw [findFenced, if_neg (by simp [hpre]), ih2]

theorem findFenced_fenced (s : List Char) (h : ∀ c ∈ s, c ≠ btick) :
    findFenced (openFence ++ (s ++ closeFence)) = some s := by
  have hcons : openFence ++ (s ++ closeFence) =
      btick :: (btick :: btick :: 'j' :: 's' :: 'o' :: 'n' :: '\n' :: (s ++ closeFence)) := by
    rw [openFence_eq]
    rfl
  have hpre : List.isPrefixOf openFence (openFence ++ (s ++ closeFence)) = true :=
    isPrefixOf_append_self _ _
  have hdrop : List.drop 8 (openFence ++ (s ++ closeFence)) = s ++ closeFence := by
    rw [show (8 : Nat) = openFence.length from rfl]
    exact List.drop_left _ _
  rw [hcons] at hpre hdrop ⊢
  rw [findFenced, if_pos hpre, hdrop, captureUpTo_closeFence s h]

theorem data_append (s t : String) : (s ++ t).data = s.data ++ t.data := by
  cases s
  cases t
  rfl

theorem mk_data (s : String) : String.mk s.data = s := by
  cases s
  rfl

theorem noBacktick_forall (s : String) (h : noBacktick s = true) :
    ∀ c ∈ s.data, c ≠ btick := by
  intro c hc
  have := List.all_eq_true.mp h c hc
  exact bne_iff_ne.mp this

theorem extractContent_no_fence (s : String) (h : noBacktick s = true) :
    extractContent s = s := by
  unfold extractContent
  rw [findFenced_no_btick s.data (noBacktick_forall s h)]

theorem extractContent_fenced (s : String) (h : noBacktick s = true) :
    extractContent ("```json\n" ++ s ++ "```") = s := by
  unfold extractContent
  have hd : ("```json\n" ++ s ++ "```").data = openFence ++ (s.data ++ closeFence) := by
    rw [data_append, data_append, List.append_assoc]
    rfl
  rw [hd, findFenced_fenced s.data (noBacktick_forall s h)]

theorem parse_resume_err_fst (st : ModelState) (file_path : String) (env : ParseEnv)
    (st2 : ModelState) (msg : String) (raw : Option String)
    (h : parse_resume st file_path env = (st2, PResult.err msg raw)) : st2 = st := by
  unfold parse_resume at h
  repeat' split at h
  all_goals simp_all

theorem parse_resume_ok_fst (st : ModelState) (file_path : String) (env : ParseEnv)
    (st2 : ModelState) (d : List (String × JValue))
    (h : parse_resume st file_path env = (st2, PResult.ok d)) :
    st2 = ModelState.mk (some d) st.interview_questions st.current_question_index ∧
      d.isEmpty = false := by
  unfold parse_resume at h
  repeat' split at h
  all_goals simp_all
  all_goals rw [← h.1, h.2]

/-- Reduction of `parse_resume` on the path where every oracle succeeds and
the reply parses: only the shape validation remains. -/
theorem parse_resume_parsed (st : ModelState) (file_path content raw : String) (v : JValue)
    (hpdf : endsWithPdf file_path = true) (hc : (pyStrip content == "") = false)
    (hparse : parseJson (extractContent raw) = Except.ok v) :
    parse_resume st file_path (ParseEnv.mk true (Except.ok content) (Except.ok raw)) =
      (match v with
       | JValue.obj fields =>
         if fields.isEmpty then (st, PResult.err "Invalid resume data structure" none)
         else (ModelState.mk (some fields) st.interview_questions st.current_question_index,
           PResult.ok fields)
       | _ => (st, PResult.err "Invalid resume data structure" none)) := by
  unfold parse_resume
  repeat' split
  all_goals simp_all
  rename_i hcontent hcne hraw hpc hne hobj hnot
  rw [hraw, hpc] at hparse
  injection hparse with hvv
  exact hnot _ hobj.symm (by rw [← hvv]; exact hobj.symm)

/-- Reduction of `parse_resume` on the JSON-decode failure path. -/
theorem parse_resume_decode_failure (st : ModelState) (file_path content raw e : String)
    (hpdf : endsWithPdf file_path = true) (hc : (pyStrip content == "") = false)
    (hparse : parseJson (extractContent raw) = Except.error e) :
    parse_resume st file_path (ParseEnv.mk true (Except.ok content) (Except.ok raw)) =
      (st, PResult.err ("Failed to parse resume data: " ++ e) (some raw)) := by
  unfold parse_resume
  repeat' split
  all_goals simp_all

/-! ## Claims -/

/-- C2, counterexample: the string `\x7b"a": "```"\x7d` parses as a JSON
object when it arrives raw, but once fenced in a ```json block the non-greedy
capture stops at the backticks inside the string value, so the extracted
content no longer parses.  The claimed round-trip equivalence for every
JSON-object reply therefore fails. -/
theorem fenced_roundtrip_cex :
    jsonOk (parseJson (extractContent "\x7b\"a\": \"```\"\x7d")) = true ∧
    jsonOk (parseJson
      (extractContent ("```json\n" ++ "\x7b\"a\": \"```\"\x7d" ++ "```"))) = false :=
  ⟨rfl, rfl⟩

/-- C2, amended: for every reply that parses as a JSON object and contains no
backtick character, the raw reply and the same content fenced as
```json ... ``` are extracted to the same string, hence parse to the same
object. -/
theorem fenced_roundtrip (s : String) (fields : List (String × JValue))
    (hb : noBacktick s = true) (hp : parseJson s = Except.ok (JValue.obj fields)) :
    parseJson (extractContent ("```json\n" ++ s ++ "```")) = parseJson (extractContent s) ∧
    parseJson (extractContent s) = Except.ok (JValue.obj fields) := by
  rw [extractContent_no_fence s hb, extractContent_fenced s hb]
  exact ⟨rfl, hp⟩

theorem fenced_roundtrip_witness :
    parseJson (extractContent ("```json\n" ++ "\x7b\"a\": 1\x7d" ++ "```")) =
      parseJson (extractContent "\x7b\"a\": 1\x7d") ∧
    parseJson (extractContent "\x7b\"a\": 1\x7d") =
      Except.ok (JValue.obj [("a", JValue.num "1")]) :=
  fenced_roundtrip "\x7b\"a\": 1\x7d" [("a", JValue.num "1")] rfl rfl

/-- C4, counterexample: the reply `\x7b\x7d` parses as a JSON object (the
empty one), yet `parse_resume` rejects it with the invalid-shape error,
because `if not parsed_data` treats the empty dict as falsy.  The claim that
no object — including the empty object — fails with that error is therefore
false. -/
theorem resume_shape_cex :
    parseJson "\x7b\x7d" = Except.ok (JValue.obj []) ∧
    (parse_resume (ModelState.mk none [] 0) "cv.pdf"
      (ParseEnv.mk true (Except.ok "resume text") (Except.ok "\x7b\x7d"))).2 =
      PResult.err "Invalid resume data structure" none :=
  ⟨rfl, rfl⟩

/-- C4, amended: on the path where the reply content parses as JSON value
`v`, `parse_resume` succeeds — storing and returning the fields — exactly
when `v` is a non-empty JSON object; the empty object, like any scalar or
list, fails with the invalid-shape error. -/
theorem resume_shape (st : ModelState) (file_path content raw : String) (v : JValue)
    (hpdf : endsWithPdf file_path = true)
    (hc : (pyStrip content == "") = false)
    (hparse : parseJson (extractContent raw) = Except.ok v) :
    (∀ d, (parse_resume st file_path (ParseEnv.mk true (Except.ok content)
        (Except.ok raw))).2 = PResult.ok d ↔ (v = JValue.obj d ∧ d.isEmpty = false)) ∧
    (isNonemptyObj v = false →
      parse_resume st file_path (ParseEnv.mk true (Except.ok content) (Except.ok raw)) =
        (st, PResult.err "Invalid resume data structure" none)) := by
  rw [parse_resume_parsed st file_path content raw v hpdf hc hparse]
  constructor
  · intro d
    cases v with
    | obj fields =>
      cases hfe : fields.isEmpty with
      | true => simp [hfe, List.isEmpty_iff.mp hfe]
      | false =>
        simp only [hfe, if_false, Bool.false_eq_true]
        constructor
        · intro h
          injection h with h2
          exact ⟨by rw [h2], by rw [← h2]; exact hfe⟩
        · intro h
          rw [(JValue.obj.injEq _ _).mp h.1]
    | null => simp
    | bool b => simp
    | num lit => simp
    | str s => simp
    | arr xs => simp
  · intro hno
    cases v with
    | obj fields =>
      cases hfe : fields.isEmpty with
      | true => simp [hfe]
      | false => simp [isNonemptyObj, hfe] at hno
    | null => simp
    | bool b => simp
    | num lit => simp
    | str s => simp
    | arr xs => simp

theorem resume_shape_witness :
    ((∀ d, (parse_resume (ModelState.mk none [] 0) "cv.pdf"
        (ParseEnv.mk true (Except.ok "resume text")
          (Except.ok "\x7b\"skills\": []\x7d"))).2 = PResult.ok d ↔
        (JValue.obj [("skills", JValue.arr [])] = JValue.obj d ∧ d.isEmpty = false)) ∧
    (isNonemptyObj (JValue.obj [("skills", JValue.arr [])]) = false →
      parse_resume (ModelState.mk none [] 0) "cv.pdf"
        (ParseEnv.mk true (Except.ok "resume text") (Except.ok "\x7b\"skills\": []\x7d")) =
        (ModelState.mk none [] 0, PResult.err "Invalid resume data structure" none))) :=
  resume_shape (ModelState.mk none [] 0) "cv.pdf" "resume text" "\x7b\"skills\": []\x7d"
    (JValue.obj [("skills", JValue.arr [])]) rfl rfl rfl

/-- C5: on the path where the extracted reply content is not parseable as
JSON, `parse_resume` returns an error dictionary whose message carries the
parser error and whose `raw_response` field is the raw reply verbatim. -/
theorem parse_error_carries_raw (st : ModelState) (file_path content raw e : String)
    (hpdf : endsWithPdf file_path = true)
    (hc : (pyStrip content == "") = false)
    (hparse : parseJson (extractContent raw) = Except.error e) :
    parse_resume st file_path (ParseEnv.mk true (Except.ok content) (Except.ok raw)) =
      (st, PResult.err ("Failed to parse resume data: " ++ e) (some raw)) :=
  parse_resume_decode_failure st file_path content raw e hpdf hc hparse

theorem parse_error_carries_raw_witness :
    parse_resume (ModelState.mk none [] 0) "cv.pdf"
      (ParseEnv.mk true (Except.ok "resume text") (Except.ok "this is not json")) =
      (ModelState.mk none [] 0,
        PResult.err ("Failed to parse resume data: " ++ "Expecting value")
          (some "this is not json")) :=
  parse_error_carries_raw (ModelState.mk none [] 0) "cv.pdf" "resume text"
    "this is not json" "Expecting value" rfl rfl rfl

/-- C1, counterexample: after a successful parse stores a résumé, the reply
`"Q: short one\nQ:Q:  padpadpadpad"` survives the length filter (both
stripped lines are longer than 10), and only then is `"Q: "` replaced — so
the first element drops to 9 characters, and in the second the removal of an
inner occurrence manufactures a leading `"Q: "`.  Both halves of the claimed
postcondition fail. -/
theorem question_postprocess_cex :
    (generate_interview_questions
      ((parse_resume (reset (ModelState.mk none [] 0)) "cv.pdf"
        (ParseEnv.mk true (Except.ok "resume text")
          (Except.ok "\x7b\"skills\": []\x7d"))).1)
      (Except.ok "Q: short one\nQ:Q:  padpadpadpad")).2 =
        ["short one", "Q: padpadpadpad"] ∧
    (["short one", "Q: padpadpadpad"].any (fun q => decide (q.length ≤ 10))) = true ∧
    (["short one", "Q: padpadpadpad"].any
      (fun q => List.isPrefixOf "Q: ".data q.data)) = true :=
  ⟨rfl, rfl, rfl⟩

/-- C1, amended: with a stored résumé that is a truthy dict without an
`error` key, the returned list is the post-processed reply — split on line
breaks, strip, drop stripped lines of length ≤ 10, replace every occurrence
of the two labels — when that list is non-empty, and the generic fallback
otherwise; it is never empty, but its elements may be short or still carry a
label after replacement. -/
theorem question_postprocess (st : ModelState) (d : List (String × JValue)) (content : String)
    (h1 : st.resume_data = some d) (h2 : d.isEmpty = false) (h3 : hasErrorKey d = false) :
    (generate_interview_questions st (Except.ok content)).2 =
      (if (processQuestions content).isEmpty then fallbackQuestions
       else processQuestions content) ∧
    (generate_interview_questions st (Except.ok content)).2 ≠ [] := by
  have hgen : (generate_interview_questions st (Except.ok content)).2 =
      (if (processQuestions content).isEmpty then fallbackQuestions
       else processQuestions content) := by
    unfold generate_interview_questions
    rw [h1]
    simp only [h2, h3, Bool.or_self, Bool.false_eq_true, if_false]
    split <;> rfl
  refine ⟨hgen, ?_⟩
  rw [hgen]
  by_cases hq : (processQuestions content).isEmpty = true
  · rw [if_pos hq]
    simp [fallbackQuestions]
  · rw [if_neg hq]
    intro h
    exact hq (by rw [h]; rfl)

theorem question_postprocess_witness :
    ((generate_interview_questions
        (ModelState.mk (some [("skills", JValue.arr [])]) [] 0)
        (Except.ok "1. What is your greatest strength?")).2 =
      (if (processQuestions "1. What is your greatest strength?").isEmpty
       then fallbackQuestions
       else processQuestions "1. What is your greatest strength?") ∧
    (generate_interview_questions
        (ModelState.mk (some [("skills", JValue.arr [])]) [] 0)
        (Except.ok "1. What is your greatest strength?")).2 ≠ []) :=
  question_postprocess (ModelState.mk (some [("skills", JValue.arr [])]) [] 0)
    [("skills", JValue.arr [])] "1. What is your greatest strength?" rfl rfl rfl

/-- C3: with no stored résumé data — right after `reset`, or after a failed
`parse_resume` call on a state holding none — `generate_interview_questions`
returns exactly the five generic fallback questions. -/
theorem no_resume_generates_fallback (st st2 : ModelState) (file_path : String)
    (env : ParseEnv) (llm llm2 : Except String String) (msg : String) (raw : Option String)
    (h2 : st2.resume_data = none)
    (h3 : (parse_resume st2 file_path env).2 = PResult.err msg raw) :
    (generate_interview_questions (reset st) llm).2 = fallbackQuestions ∧
    (generate_interview_questions (parse_resume st2 file_path env).1 llm2).2 =
      fallbackQuestions := by
  constructor
  · rfl
  · have hp : parse_resume st2 file_path env =
        ((parse_resume st2 file_path env).1, PResult.err msg raw) := by
      rw [← h3]
    have hfst := parse_resume_err_fst st2 file_path env _ msg raw hp
    rw [hfst]
    unfold generate_interview_questions
    rw [h2]

theorem no_resume_generates_fallback_witness :
    ((generate_interview_questions (reset (ModelState.mk (some [("a", JValue.null)]) ["x"] 2))
        (Except.ok "hello there everyone")).2 = fallbackQuestions ∧
    (generate_interview_questions
        (parse_resume (ModelState.mk none [] 0) "cv.pdf"
          (ParseEnv.mk true (Except.ok "resume text") (Except.error "boom"))).1
        (Except.ok "hello there everyone")).2 = fallbackQuestions) :=
  no_resume_generates_fallback (ModelState.mk (some [("a", JValue.null)]) ["x"] 2)
    (ModelState.mk none [] 0) "cv.pdf"
    (ParseEnv.mk true (Except.ok "resume text") (Except.error "boom"))
    (Except.ok "hello there everyone") (Except.ok "hello there everyone")
    "Model invocation failed: boom" none rfl rfl

/-- C6: evaluating the model at the failing input.  With the stored résumé
`\x7b"skills": ["python"]\x7d` — a perfectly legitimate parsed résumé —
`evaluate_answer` evaluates `self.resume_data.get('skills', \x7b\x7d)
.get('technical', [])` in the f-string built before the `try` block, and the
`.get` call on a list raises an `AttributeError` that escapes the method
uncaught, instead of the claimed string result. -/
theorem evaluate_answer_uncaught_attribute_error :
    evaluate_answer
      (ModelState.mk (some [("skills", JValue.arr [JValue.str "python"])]) [] 0)
      "Tell me about your skills." "I know Python."
      (fun _ => Except.ok "Good answer.") =
      Except.error "AttributeError: \x27list\x27 object has no attribute \x27get\x27" :=
  rfl

/-- C7: on every exit path of the accepted-upload branch of the
`/api/parse-resume` handler — success, parse error, or an exception inside
the `try` body — the `finally` clause has unlinked the temporary file, so it
no longer exists when the handler returns. -/
theorem temp_file_removed (st : ModelState) (env : ParseEnv) (qllm : Except String String)
    (bodyExc : Option String) :
    (app_parse_resume st env qllm bodyExc).tempExists = false := by
  unfold app_parse_resume
  dsimp only
  repeat' split
  all_goals first
  | rfl
  | simp_all

/-- C8: with no stored résumé data, `evaluate_answer` succeeds: the context
block is the empty string — so the prompt handed to the model is the
evaluation template with no candidate-context block — and the reply is
passed back verbatim, hence non-empty whenever the reply is. -/
theorem evaluate_answer_no_resume (st : ModelState) (q a r : String)
    (h : st.resume_data = none) (hr : r ≠ "") :
    evaluate_answer st q a (fun _ => Except.ok r) = Except.ok r ∧
    buildContext st.resume_data = Except.ok "" ∧
    (∀ llm : String → Except String String,
      evaluate_answer st q a llm = evalInvoke (llm (evalPrompt "" q a))) ∧
    r ≠ "" := by
  have hb : buildContext st.resume_data = Except.ok "" := by
    rw [h]
    rfl
  refine ⟨?_, hb, ?_, hr⟩
  · unfold evaluate_answer
    rw [hb]
    rfl
  · intro llm
    unfold evaluate_answer
    rw [hb]

theorem evaluate_answer_no_resume_witness :
    evaluate_answer (ModelState.mk none [] 0) "Q1" "A1"
      (fun _ => Except.ok "Nice answer overall.") = Except.ok "Nice answer overall." ∧
    buildContext (ModelState.mk none [] 0).resume_data = Except.ok "" :=
  ⟨(evaluate_answer_no_resume (ModelState.mk none [] 0) "Q1" "A1" "Nice answer overall."
      rfl (by decide)).1,
   (evaluate_answer_no_resume (ModelState.mk none [] 0) "Q1" "A1" "Nice answer overall."
      rfl (by decide)).2.1⟩

/-- C9: `parse_resume` assigns `resume_data` only on success — on every
failure branch the state after the call is the state before it. -/
theorem parse_resume_assigns_only_on_success (st : ModelState) (file_path : String)
    (env : ParseEnv) (msg : String) (raw : Option String)
    (h : (parse_resume st file_path env).2 = PResult.err msg raw) :
    (parse_resume st file_path env).1 = st :=
  parse_resume_err_fst st file_path env _ msg raw (by rw [← h])

theorem parse_resume_assigns_only_on_success_witness :
    (parse_resume (ModelState.mk (some [("k", JValue.null)]) ["q"] 1) "cv.pdf"
      (ParseEnv.mk false (Except.ok "") (Except.ok ""))).1 =
      ModelState.mk (some [("k", JValue.null)]) ["q"] 1 :=
  parse_resume_assigns_only_on_success
    (ModelState.mk (some [("k", JValue.null)]) ["q"] 1) "cv.pdf"
    (ParseEnv.mk false (Except.ok "") (Except.ok ""))
    "File not found: cv.pdf" none rfl

/-- C10: when `parse_resume` succeeds and the stored résumé object itself
contains an `error` key, `generate_interview_questions` takes the fallback
branch and returns the generic list, without consulting the model. -/
theorem stored_error_key_fallback (st st2 : ModelState) (file_path : String)
    (env : ParseEnv) (d : List (String × JValue)) (llm : Except String String)
    (hok : parse_resume st file_path env = (st2, PResult.ok d))
    (hkey : hasErrorKey d = true) :
    (generate_interview_questions st2 llm).2 = fallbackQuestions := by
  obtain ⟨hst, _⟩ := parse_resume_ok_fst st file_path env st2 d hok
  subst hst
  simp [generate_interview_questions, hkey]

theorem stored_error_key_fallback_witness :
    (generate_interview_questions
      (ModelState.mk (some [("error", JValue.str "x")]) [] 0)
      (Except.ok "What is your proudest achievement?")).2 = fallbackQuestions :=
  stored_error_key_fallback (ModelState.mk none [] 0)
    (ModelState.mk (some [("error", JValue.str "x")]) [] 0) "cv.pdf"
    (ParseEnv.mk true (Except.ok "resume text") (Except.ok "\x7b\"error\": \"x\"\x7d"))
    [("error", JValue.str "x")] (Except.ok "What is your proudest achievement?") rfl rfl
